import Mathlib

/-!
Verification development for the VerifAI scoring/ranking core.

The definitions below are a shallow embedding of the bias-scoring pipeline
(BiasDetector in backend/bias_analysis.py) and the related-article ranking
(NewsSearcher in backend/search.py).  Python floats are modelled as rational
numbers, Python strings as Lean strings, and the Python string operations
lower()/split() as structural functions over the character list of the
string.  The external collaborators (the VADER sentiment analyzer, the
warehouse vector search and the LLM reranking scores) enter the model as
plain arguments, exactly as their outputs enter the Python functions.
-/

namespace VerifAI

/-- Python str.lower() of a string, as its character list. -/
def pyLower (s : String) : List Char := s.data.map Char.toLower

/-- Helper for Python str.split() with no separator: walk the characters,
accumulating the current word (reversed) and emitting it at each whitespace
character; empty pieces are dropped, as Python does. -/
def splitWsAux : List Char → List Char → List (List Char)
  | [], cur => if cur = [] then [] else [cur.reverse]
  | c :: rest, cur =>
    if c.isWhitespace then
      if cur = [] then splitWsAux rest [] else cur.reverse :: splitWsAux rest []
    else splitWsAux rest (c :: cur)

/-- Python str.split() with no separator: split on runs of whitespace,
producing no empty tokens. -/
def pySplit (cs : List Char) : List (List Char) := splitWsAux cs []

/-- Whether the first list is an initial segment of the second. -/
def leadsChars : List Char → List Char → Bool
  | [], _ => true
  | _ :: _, [] => false
  | n :: ns, h :: hs => n = h && leadsChars ns hs

/-- Python substring test needle in hay over character lists. -/
def containsSub : List Char → List Char → Bool
  | [], needle => needle.isEmpty
  | h :: rest, needle => leadsChars needle (h :: rest) || containsSub rest needle

/-! BiasDetector._load_bias_indicators: the fixed lexicon. -/

/-- Lexicon category emotional_language. -/
def emotional_language : List (List Char) :=
  (["outrageous", "shocking", "horrible", "terrible",
    "amazing", "incredible", "wonderful", "fantastic"]).map String.data

/-- Lexicon category loaded_words. -/
def loaded_words : List (List Char) :=
  (["radical", "extremist", "terrorist", "socialist",
    "conspiracy", "propaganda", "regime", "elite"]).map String.data

/-- Lexicon category partisan_terms. -/
def partisan_terms : List (List Char) :=
  (["leftist", "rightist", "liberal", "conservative",
    "democrat", "republican", "progressive", "traditionalist"]).map String.data

/-- Result of BiasDetector._analyze_language_patterns: the three indicator
counts and the emotional-language score. -/
structure LanguageAnalysis where
  emotional : Nat
  loaded : Nat
  partisan : Nat
  emotional_score : ℚ
deriving Repr, DecidableEq

/-- BiasDetector._analyze_language_patterns: lowercase the text, split on
whitespace, count tokens occurring in each lexicon category, and divide the
total indicator count by the total word count (0 when there are no words). -/
def analyzeLanguagePatterns (text : String) : LanguageAnalysis :=
  let words := pySplit (pyLower text)
  let emotional := words.countP (fun w => emotional_language.contains w)
  let loaded := words.countP (fun w => loaded_words.contains w)
  let partisan := words.countP (fun w => partisan_terms.contains w)
  let total_bias_words := emotional + loaded + partisan
  let total_words := words.length
  let emotional_score : ℚ :=
    if total_words > 0 then (total_bias_words : ℚ) / (total_words : ℚ) else 0
  ⟨emotional, loaded, partisan, emotional_score⟩

/-- BiasDetector._get_sentiment_label. -/
def getSentimentLabel (compound_score : ℚ) : String :=
  if compound_score ≥ 1/20 then "positive"
  else if compound_score ≤ -(1/20) then "negative"
  else "neutral"

/-- Article payload consumed by BiasDetector.analyze: the text and the
optional source domain.  A Python article_data value that is None or an
empty dict is modelled as the absence of this record. -/
structure ArticleData where
  text : String
  domain : Option String
deriving Repr, DecidableEq

/-- Result record of BiasDetector.analyze.  The error field is present
exactly on the default result; bias_indicators is the indicator-count map
as an association list, empty on the default result. -/
structure AnalyzeResult where
  error : Option String
  bias_score : ℚ
  political_leaning : String
  sentiment : String
  bias_indicators : List (String × Nat)
  key_findings : List String
  recommendations : List String
deriving Repr, DecidableEq

/-- BiasDetector._get_default_results. -/
def getDefaultResults : AnalyzeResult :=
  { error := some "Analysis could not be completed"
    bias_score := 0
    political_leaning := "center"
    sentiment := "neutral"
    bias_indicators := []
    key_findings := []
    recommendations := [] }

/-- The base_category chain of BiasDetector._get_political_leaning. -/
def baseCategory (bias_score : ℚ) : String :=
  if bias_score ≤ -(3/5) then "far left"
  else if bias_score ≤ -(1/5) then "left"
  else if bias_score ≤ 1/5 then "center"
  else if bias_score ≤ 3/5 then "right"
  else "far right"

/-- BiasDetector._get_political_leaning: threshold the bias score, then on
heavy partisan vocabulary (count above 5) return the far category matching
the sign of the score. -/
def getPoliticalLeaning (bias_score : ℚ) (partisanCount : Nat) : String :=
  if partisanCount > 5 then
    if bias_score < 0 then "far left"
    else if bias_score > 0 then "far right"
    else baseCategory bias_score
  else baseCategory bias_score

/-- BiasDetector.analyze.  The compound argument is the VADER compound
polarity of the text, an external input in the Python code.  A falsy
article_data is the none case; an empty text yields the default result;
otherwise the language analysis runs and the bias score is the clamped
mix of 0.3 times compound and 0.7 times the emotional score. -/
def analyze (compound : ℚ) (article_data : Option ArticleData) : AnalyzeResult :=
  match article_data with
  | none => getDefaultResults
  | some ad =>
    if ad.text = "" then getDefaultResults
    else
      let language_analysis := analyzeLanguagePatterns ad.text
      let sentiment_bias := compound * (3/10)
      let language_bias := language_analysis.emotional_score * (7/10)
      let bias_score := max (-1) (min 1 (sentiment_bias + language_bias))
      let political_leaning := getPoliticalLeaning bias_score language_analysis.partisan
      let key_findings :=
        (if |compound| > 1/5 then
          [if compound < 0 then "Strong negative tone detected"
           else "Strong positive tone detected"]
         else []) ++
        (if language_analysis.emotional_score > 1/10 then
          ["Significant use of emotional language"]
         else [])
      let recommendations :=
        (if |bias_score| > 3/10 then
          ["Consider consulting sources with different perspectives"]
         else []) ++
        (if language_analysis.emotional_score > 3/20 then
          ["Be aware of emotional language influence"]
         else [])
      { error := none
        bias_score := bias_score
        political_leaning := political_leaning
        sentiment := getSentimentLabel compound
        bias_indicators :=
          [("emotional", language_analysis.emotional),
           ("loaded", language_analysis.loaded),
           ("partisan", language_analysis.partisan)]
        key_findings := key_findings
        recommendations := recommendations }

/-! Source analysis: BiasDetector._analyze_sources and its helpers. -/

/-- A related article as consumed by the source analysis: the metadata
fields domain and content that the Python code reads. -/
structure RelatedArticle where
  domain : Option String
  content : String
deriving Repr, DecidableEq

/-- Python truthiness of an optional string field. -/
def pyTruthy (o : Option String) : Bool := o.getD "" ≠ ""

/-- Append a string to the list when absent: the insertion behaviour of the
Python set of sources, keeping first-insertion order. -/
def addUnique (l : List String) (s : String) : List String :=
  if s ∈ l then l else l ++ [s]

/-- The set of source domains gathered by _analyze_sources: the primary
article's domain when truthy, then each related article's truthy domain. -/
def collectSources (article_data : ArticleData) (related : List RelatedArticle) :
    List String :=
  let init := if pyTruthy article_data.domain then [article_data.domain.getD ""] else []
  related.foldl
    (fun acc a => if pyTruthy a.domain then addUnique acc (a.domain.getD "") else acc)
    init

/-- BiasDetector._calculate_text_similarity on already-lowercased texts:
Jaccard overlap of the word sets. -/
def calculateTextSimilarity (text1 text2 : List Char) : ℚ :=
  let words1 := (pySplit text1).toFinset
  let words2 := (pySplit text2).toFinset
  let inter := words1 ∩ words2
  let uni := words1 ∪ words2
  if uni.card > 0 then (inter.card : ℚ) / (uni.card : ℚ) else 0

/-- BiasDetector._calculate_source_consistency: 0.5 with no related
articles, else the mean similarity of the primary text to each related
article's content. -/
def calculateSourceConsistency (article_data : ArticleData)
    (related : List RelatedArticle) : ℚ :=
  if related.isEmpty then 1/2
  else
    let main_text := pyLower article_data.text
    let consistency_scores :=
      related.map (fun a => calculateTextSimilarity main_text (pyLower a.content))
    consistency_scores.sum / (consistency_scores.length : ℚ)

/-- BiasDetector._is_left_leaning: a fixed left-term list matched as Python
substrings of the lowercased content. -/
def isLeftLeaning (a : RelatedArticle) : Bool :=
  let text := pyLower a.content
  ((["progressive", "liberal", "democrat", "socialism", "workers"]).map String.data).any
    (fun t => containsSub text t)

/-- BiasDetector._is_right_leaning: the right-term counterpart. -/
def isRightLeaning (a : RelatedArticle) : Bool :=
  let text := pyLower a.content
  ((["conservative", "republican", "traditional", "freedom", "patriot"]).map String.data).any
    (fun t => containsSub text t)

/-- Output record of BiasDetector._analyze_sources. -/
structure SourceAnalysis where
  diversity : ℚ
  credibility : ℚ
  consistency : ℚ
  bias_score : ℚ
deriving Repr, DecidableEq

/-- BiasDetector._analyze_sources: domain diversity, mean of the constant
0.7 per-source credibility stand-in (0.5 with no sources), cross-source
consistency, and the left/right keyword balance over the related articles. -/
def analyzeSources (article_data : ArticleData) (related_articles : List RelatedArticle) :
    SourceAnalysis :=
  let sources := collectSources article_data related_articles
  let diversity : ℚ :=
    (sources.length : ℚ) / ((max (related_articles.length + 1) 1 : Nat) : ℚ)
  let credibility_scores : List ℚ := sources.map (fun _ => 7/10)
  let avg_credibility : ℚ :=
    if credibility_scores.length > 0 then
      credibility_scores.sum / (credibility_scores.length : ℚ)
    else 1/2
  let consistency := calculateSourceConsistency article_data related_articles
  let bias_score : ℚ :=
    if related_articles.isEmpty then 0
    else
      let left_leaning := related_articles.countP isLeftLeaning
      let right_leaning := related_articles.countP isRightLeaning
      ((right_leaning : ℚ) - (left_leaning : ℚ)) / (related_articles.length : ℚ)
  ⟨diversity, avg_credibility, consistency, bias_score⟩

/-! Related-article ranking: NewsSearcher._rerank_with_mistral and
NewsSearcher.find_related. -/

/-- A warehouse search hit as consumed by the reranking: the semantic
similarity score and the metadata fields the code reads. -/
structure SearchResult where
  score : ℚ
  title : String
  content : String
  domain : String
deriving Repr, DecidableEq

/-- A search hit after reranking, carrying the optional external score and
the final score. -/
structure RankedResult where
  result : SearchResult
  mistral_score : Option ℚ
  final_score : ℚ
deriving Repr, DecidableEq

/-- The per-candidate scoring pass of _rerank_with_mistral.  When the
external score map parsed, each candidate at index i receives
0.6 times its similarity plus 0.4 times the external score for i (0 when i
is absent); when parsing failed, the final score is the similarity alone. -/
def scoreResults (search_results : List SearchResult)
    (scores_dict : Option (List (Nat × ℚ))) : List RankedResult :=
  match scores_dict with
  | some sd =>
    search_results.enum.map (fun p =>
      let ms := (sd.lookup p.1).getD 0
      ⟨p.2, some ms, p.2.score * (6/10) + ms * (4/10)⟩)
  | none => search_results.map (fun r => ⟨r, none, r.score⟩)

/-- The comparison of the Python sort with reverse=True on final_score: a
precedes b when the final score of b is at most that of a. -/
def rankGE (a b : RankedResult) : Prop := b.final_score ≤ a.final_score

instance : DecidableRel rankGE :=
  fun a b => inferInstanceAs (Decidable (b.final_score ≤ a.final_score))

instance : IsTotal RankedResult rankGE :=
  ⟨fun a b => le_total b.final_score a.final_score⟩

instance : IsTrans RankedResult rankGE :=
  ⟨fun _ _ _ hab hbc => le_trans hbc hab⟩

/-- NewsSearcher._rerank_with_mistral: score the candidates, then sort them
descending by final score with Python's stable sort.  The output of a
stable sort is determined by the input order and the comparison alone, so
the sort is modelled by stable insertion sort. -/
def rerankWithMistral (search_results : List SearchResult)
    (scores_dict : Option (List (Nat × ℚ))) : List RankedResult :=
  (scoreResults search_results scores_dict).insertionSort rankGE

/-- NewsSearcher.find_related, from the point where the warehouse results
are in hand: rerank and keep the first top_k. -/
def findRelated (cortex_results : List SearchResult)
    (scores_dict : Option (List (Nat × ℚ))) (top_k : Nat) : List RankedResult :=
  (rerankWithMistral cortex_results scores_dict).take top_k

/-- Follows the spec's words (section 4.4), for comparison with analyze:
the claimed weighted blend of the four pre-normalized components, clamped
to the unit interval around zero. -/
def specWeightedBlend (sentiment_component lexical_component
    source_component factual_component : ℚ) : ℚ :=
  max (-1) (min 1
    (2/10 * sentiment_component + 3/10 * lexical_component +
     3/10 * source_component + 2/10 * factual_component))

/-- The scenario text of the spec's section 8. -/
def scenarioText : String :=
  "This is absolutely outrageous and shocking, a total conspiracy by the elite regime"

/-- The three candidates of the spec's ranking scenario, with similarities
0.9, 0.5 and 0.8 and titles recording the original positions. -/
def scenarioCandidates : List SearchResult :=
  [⟨9/10, "c0", "", ""⟩, ⟨5/10, "c1", "", ""⟩, ⟨8/10, "c2", "", ""⟩]

/-- Two candidates with equal similarity, for exercising tie-breaking. -/
def tieCandidates : List SearchResult :=
  [⟨1/2, "a", "", ""⟩, ⟨1/2, "b", "", ""⟩]

/-! Helper lemmas shared by the claim theorems. -/

/-- On a present article with non-empty text, analyze returns the record
built on the success path. -/
lemma analyze_some_eq (compound : ℚ) (ad : ArticleData) (h : ad.text ≠ "") :
    analyze compound (some ad) =
      { error := none
        bias_score :=
          max (-1) (min 1 (compound * (3/10) +
            (analyzeLanguagePatterns ad.text).emotional_score * (7/10)))
        political_leaning :=
          getPoliticalLeaning
            (max (-1) (min 1 (compound * (3/10) +
              (analyzeLanguagePatterns ad.text).emotional_score * (7/10))))
            (analyzeLanguagePatterns ad.text).partisan
        sentiment := getSentimentLabel compound
        bias_indicators :=
          [("emotional", (analyzeLanguagePatterns ad.text).emotional),
           ("loaded", (analyzeLanguagePatterns ad.text).loaded),
           ("partisan", (analyzeLanguagePatterns ad.text).partisan)]
        key_findings :=
          (if |compound| > 1/5 then
            [if compound < 0 then "Strong negative tone detected"
             else "Strong positive tone detected"]
           else []) ++
          (if (analyzeLanguagePatterns ad.text).emotional_score > 1/10 then
            ["Significant use of emotional language"]
           else [])
        recommendations :=
          (if |max (-1) (min 1 (compound * (3/10) +
              (analyzeLanguagePatterns ad.text).emotional_score * (7/10)))| > 3/10 then
            ["Consider consulting sources with different perspectives"]
           else []) ++
          (if (analyzeLanguagePatterns ad.text).emotional_score > 3/20 then
            ["Be aware of emotional language influence"]
           else []) } := by
  simp only [analyze]
  rw [if_neg h]

/-- The emotional score unfolded in terms of the three counts and the word
count. -/
lemma emotional_score_eq (t : String) :
    (analyzeLanguagePatterns t).emotional_score =
      if 0 < (pySplit (pyLower t)).length then
        (((analyzeLanguagePatterns t).emotional + (analyzeLanguagePatterns t).loaded +
            (analyzeLanguagePatterns t).partisan : ℕ) : ℚ) /
          ((pySplit (pyLower t)).length : ℚ)
      else 0 :=
  rfl

/-- The emotional score is never negative. -/
lemma emotional_score_nonneg (t : String) :
    0 ≤ (analyzeLanguagePatterns t).emotional_score := by
  rw [emotional_score_eq]
  split
  · positivity
  · exact le_refl 0

/-- With at most 5 partisan indicator words, the leaning is the plain
threshold category. -/
lemma getPoliticalLeaning_eq_base (s : ℚ) (p : ℕ) (hp : p ≤ 5) :
    getPoliticalLeaning s p = baseCategory s := by
  unfold getPoliticalLeaning
  rw [if_neg (by omega)]

/-- The sentiment label is always one of the three documented strings. -/
lemma getSentimentLabel_cases (c : ℚ) :
    getSentimentLabel c = "positive" ∨ getSentimentLabel c = "neutral" ∨
      getSentimentLabel c = "negative" := by
  unfold getSentimentLabel
  split
  · exact Or.inl rfl
  · split
    · exact Or.inr (Or.inr rfl)
    · exact Or.inr (Or.inl rfl)

/-- C4: For every compound sentiment value and every article input, analyze
returns a bias score inside the interval from -1 to 1 and a sentiment label
among positive, neutral and negative; the embedded function is total, so no
input reaches an unhandled exception. -/
theorem analyze_result_in_range (compound : ℚ) (article_data : Option ArticleData) :
    -1 ≤ (analyze compound article_data).bias_score ∧
    (analyze compound article_data).bias_score ≤ 1 ∧
    ((analyze compound article_data).sentiment = "positive" ∨
     (analyze compound article_data).sentiment = "neutral" ∨
     (analyze compound article_data).sentiment = "negative") := by
  match article_data with
  | none =>
    exact ⟨by norm_num [analyze, getDefaultResults], by norm_num [analyze, getDefaultResults],
      Or.inr (Or.inl rfl)⟩
  | some ad =>
    by_cases h : ad.text = ""
    · refine ⟨?_, ?_, Or.inr (Or.inl ?_)⟩ <;>
        simp only [analyze, if_pos h] <;> norm_num [getDefaultResults]
    · rw [analyze_some_eq compound ad h]
      exact ⟨le_max_left _ _, max_le (by norm_num) (min_le_left _ _),
        getSentimentLabel_cases compound⟩

/-- C5: On an absent article or an empty text, analyze returns the default
result, whose fields are bias score 0, leaning center, neutral sentiment
and empty indicator, finding and recommendation lists. -/
theorem analyze_empty_input_default (compound : ℚ) (dom : Option String) :
    analyze compound none = getDefaultResults ∧
    analyze compound (some ⟨"", dom⟩) = getDefaultResults ∧
    getDefaultResults.bias_score = 0 ∧
    getDefaultResults.political_leaning = "center" ∧
    getDefaultResults.sentiment = "neutral" ∧
    getDefaultResults.bias_indicators = [] ∧
    getDefaultResults.key_findings = [] ∧
    getDefaultResults.recommendations = [] :=
  ⟨rfl, rfl, rfl, rfl, rfl, rfl, rfl, rfl⟩

/-- C2 (amended): with no partisan escalation the leaning follows the fixed
thresholds, and the boundary value -0.6 itself falls in the far-left
branch, since the far-left test is the inclusive comparison with -0.6. -/
theorem leaning_threshold_map (s : ℚ) (p : ℕ) (hp : p ≤ 5) :
    (s ≤ -(3/5) → getPoliticalLeaning s p = "far left") ∧
    (-(3/5) < s → s ≤ -(1/5) → getPoliticalLeaning s p = "left") ∧
    (-(1/5) < s → s ≤ 1/5 → getPoliticalLeaning s p = "center") ∧
    (1/5 < s → s ≤ 3/5 → getPoliticalLeaning s p = "right") ∧
    (3/5 < s → getPoliticalLeaning s p = "far right") ∧
    getPoliticalLeaning (-(3/5)) p = "far left" := by
  refine ⟨fun h1 => ?_, fun h1 h2 => ?_, fun h1 h2 => ?_, fun h1 h2 => ?_, fun h1 => ?_, ?_⟩ <;>
    rw [getPoliticalLeaning_eq_base _ _ hp] <;> unfold baseCategory
  · rw [if_pos h1]
  · rw [if_neg (by linarith), if_pos h2]
  · rw [if_neg (by linarith), if_neg (by linarith), if_pos h2]
  · rw [if_neg (by linarith), if_neg (by linarith), if_neg (by linarith), if_pos h2]
  · rw [if_neg (by linarith), if_neg (by linarith), if_neg (by linarith), if_neg (by linarith)]
  · rw [if_pos (by norm_num)]

/-- Witness for C2: the threshold map evaluated on one point per band and
on the boundary -0.6. -/
theorem leaning_threshold_map_witness :
    getPoliticalLeaning (-(7/10)) 0 = "far left" ∧
    getPoliticalLeaning (-(3/10)) 0 = "left" ∧
    getPoliticalLeaning 0 0 = "center" ∧
    getPoliticalLeaning (3/10) 0 = "right" ∧
    getPoliticalLeaning 1 0 = "far right" ∧
    getPoliticalLeaning (-(3/5)) 0 = "far left" :=
  ⟨(leaning_threshold_map (-(7/10)) 0 (by norm_num)).1 (by norm_num),
   (leaning_threshold_map (-(3/10)) 0 (by norm_num)).2.1 (by norm_num) (by norm_num),
   (leaning_threshold_map 0 0 (by norm_num)).2.2.1 (by norm_num) (by norm_num),
   (leaning_threshold_map (3/10) 0 (by norm_num)).2.2.2.1 (by norm_num) (by norm_num),
   (leaning_threshold_map 1 0 (by norm_num)).2.2.2.2.1 (by norm_num),
   (leaning_threshold_map (-(3/5)) 0 (by norm_num)).2.2.2.2.2⟩

/-- Counterexample for C2 as stated: a bias score of exactly -0.6 maps to
far left, not to left. -/
theorem leaning_boundary_cex :
    getPoliticalLeaning (-(3/5)) 0 ≠ "left" ∧
    getPoliticalLeaning (-(3/5)) 0 = "far left" := by
  have h : getPoliticalLeaning (-(3/5)) 0 = "far left" := by
    rw [getPoliticalLeaning_eq_base _ _ (by omega)]
    unfold baseCategory
    rw [if_pos (by norm_num)]
  exact ⟨by rw [h]; decide, h⟩

/-- C3 (amended): the escalation fires exactly when the total partisan
indicator count exceeds 5, sending any label with a negative score to far
left and any label with a positive score to far right; a score of exactly 0
and any count at most 5 keep the plain threshold category. -/
theorem partisan_escalation_rule (s : ℚ) (p : ℕ) :
    (5 < p → s < 0 → getPoliticalLeaning s p = "far left") ∧
    (5 < p → 0 < s → getPoliticalLeaning s p = "far right") ∧
    (5 < p → s = 0 → getPoliticalLeaning s p = baseCategory s) ∧
    (p ≤ 5 → getPoliticalLeaning s p = baseCategory s) := by
  refine ⟨fun hp hs => ?_, fun hp hs => ?_, fun hp hs => ?_, fun hp => ?_⟩
  · unfold getPoliticalLeaning
    rw [if_pos hp, if_pos hs]
  · unfold getPoliticalLeaning
    rw [if_pos hp, if_neg (not_lt.mpr hs.le), if_pos hs]
  · unfold getPoliticalLeaning
    rw [if_pos hp, if_neg (by simp [hs]), if_neg (by simp [hs])]
  · exact getPoliticalLeaning_eq_base s p hp

/-- Witness for C3: the escalation rule applied on each of its branches. -/
theorem partisan_escalation_rule_witness :
    getPoliticalLeaning (-(1/10)) 6 = "far left" ∧
    getPoliticalLeaning (1/10) 6 = "far right" ∧
    getPoliticalLeaning 0 6 = baseCategory 0 ∧
    getPoliticalLeaning (1/10) 3 = baseCategory (1/10) :=
  ⟨(partisan_escalation_rule (-(1/10)) 6).1 (by omega) (by norm_num),
   (partisan_escalation_rule (1/10) 6).2.1 (by omega) (by norm_num),
   (partisan_escalation_rule 0 6).2.2.1 (by omega) rfl,
   (partisan_escalation_rule (1/10) 3).2.2.2 (by omega)⟩

/-- Counterexample for C3 as stated: with 6 partisan words a score of -0.1,
whose threshold category is center, is escalated to far left, so a label
other than left or right is changed, and the trigger is the single total
partisan count rather than a difference of per-side counts. -/
theorem partisan_escalation_cex :
    baseCategory (-(1/10)) = "center" ∧
    getPoliticalLeaning (-(1/10)) 6 = "far left" := by
  constructor
  · unfold baseCategory
    rw [if_neg (by norm_num), if_neg (by norm_num), if_pos (by norm_num)]
  · unfold getPoliticalLeaning
    rw [if_pos (by omega), if_pos (by norm_num)]

/-- C1 (amended): the final bias score of analyze is the clamp to the unit
interval around zero of 0.3 times the compound sentiment plus 0.7 times the
emotional-language score; no source or factual component enters the blend. -/
theorem analyze_blend_formula (compound : ℚ) (ad : ArticleData) (h : ad.text ≠ "") :
    (analyze compound (some ad)).bias_score =
      max (-1) (min 1 (compound * (3/10) +
        (analyzeLanguagePatterns ad.text).emotional_score * (7/10))) := by
  rw [analyze_some_eq compound ad h]

/-- Witness for C1: the blend formula evaluated on a one-word article. -/
theorem analyze_blend_formula_witness :
    (ArticleData.mk "outrageous" none).text ≠ "" ∧
    (analyze 0 (some ⟨"outrageous", none⟩)).bias_score =
      max (-1) (min 1 ((0 : ℚ) * (3/10) +
        (analyzeLanguagePatterns "outrageous").emotional_score * (7/10))) :=
  ⟨by decide, analyze_blend_formula 0 ⟨"outrageous", none⟩ (by decide)⟩

/-- Counterexample for C1 as stated: on the one-word article outrageous
with compound sentiment 0 and no candidates, analyze returns 0.7, while the
spec's four-component blend with the components the spec derives for this
input (sentiment 0, lexical 1, source 0 from the empty candidate list, and
factual 0.25 from the default accuracy 0.5) gives 0.35. -/
theorem weighted_blend_cex :
    (analyze 0 (some ⟨"outrageous", none⟩)).bias_score = 7/10 ∧
    specWeightedBlend 0 (analyzeLanguagePatterns "outrageous").emotional_score
      (analyzeSources ⟨"outrageous", none⟩ []).bias_score (1/4) = 7/20 ∧
    (7/10 : ℚ) ≠ 7/20 := by
  have hes : (analyzeLanguagePatterns "outrageous").emotional_score = 1 := by
    have he : (analyzeLanguagePatterns "outrageous").emotional = 1 := by decide
    have hl : (analyzeLanguagePatterns "outrageous").loaded = 0 := by decide
    have hp : (analyzeLanguagePatterns "outrageous").partisan = 0 := by decide
    have hlen : (pySplit (pyLower "outrageous")).length = 1 := by decide
    rw [emotional_score_eq, he, hl, hp, hlen]
    norm_num
  have hsrc : (analyzeSources ⟨"outrageous", none⟩ []).bias_score = 0 := rfl
  refine ⟨?_, ?_, by norm_num⟩
  · rw [analyze_some_eq 0 ⟨"outrageous", none⟩ (by decide)]
    show max (-1) (min 1 ((0 : ℚ) * (3/10) +
      (analyzeLanguagePatterns "outrageous").emotional_score * (7/10))) = 7/10
    rw [hes]
    norm_num
  · rw [hsrc]
    unfold specWeightedBlend
    rw [hes]
    norm_num

/-- C10: on the successful path, with the compound sentiment in its VADER
range, the bias score is at least -0.3, so the far-left band of the
threshold map is unreachable and a far-left label can only come from the
partisan escalation. -/
theorem analyze_score_lower_bound (compound : ℚ) (ad : ArticleData)
    (h1 : -1 ≤ compound) (h2 : compound ≤ 1) (h : ad.text ≠ "") :
    -(3/10) ≤ (analyze compound (some ad)).bias_score ∧
    ((analyze compound (some ad)).political_leaning = "far left" →
      5 < (analyzeLanguagePatterns ad.text).partisan) := by
  have hes0 : 0 ≤ (analyzeLanguagePatterns ad.text).emotional_score :=
    emotional_score_nonneg ad.text
  have hsum : -(3/10) ≤ compound * (3/10) +
      (analyzeLanguagePatterns ad.text).emotional_score * (7/10) := by nlinarith
  have hbs : -(3/10) ≤ max (-1) (min 1 (compound * (3/10) +
      (analyzeLanguagePatterns ad.text).emotional_score * (7/10))) :=
    le_trans (le_min (by norm_num) hsum) (le_max_right _ _)
  have hscore : (analyze compound (some ad)).bias_score =
      max (-1) (min 1 (compound * (3/10) +
        (analyzeLanguagePatterns ad.text).emotional_score * (7/10))) := by
    rw [analyze_some_eq compound ad h]
  have hlean : (analyze compound (some ad)).political_leaning =
      getPoliticalLeaning
        (max (-1) (min 1 (compound * (3/10) +
          (analyzeLanguagePatterns ad.text).emotional_score * (7/10))))
        (analyzeLanguagePatterns ad.text).partisan := by
    rw [analyze_some_eq compound ad h]
  refine ⟨hscore ▸ hbs, fun hfl => ?_⟩
  by_contra hnp
  push_neg at hnp
  rw [hlean, getPoliticalLeaning_eq_base _ _ hnp] at hfl
  unfold baseCategory at hfl
  rw [if_neg (by linarith)] at hfl
  split_ifs at hfl <;> exact absurd hfl (by decide)

/-- Witness for C10: the lower bound and the escalation-only fact on a
plain five-letter article with neutral sentiment. -/
theorem analyze_score_lower_bound_witness :
    -(3/10 : ℚ) ≤ (analyze 0 (some ⟨"hello", none⟩)).bias_score ∧
    ((analyze 0 (some ⟨"hello", none⟩)).political_leaning = "far left" →
      5 < (analyzeLanguagePatterns "hello").partisan) :=
  analyze_score_lower_bound 0 ⟨"hello", none⟩ (by norm_num) (by norm_num) (by decide)

/-- C7 (amended): on the spec's scenario sentence the language analysis
counts 1 emotional word and 3 loaded words over 13 whitespace tokens, since
the token shocking keeps its trailing comma and does not match, and the
emotional score is 4/13. -/
theorem language_patterns_scenario :
    analyzeLanguagePatterns scenarioText = ⟨1, 3, 0, 4/13⟩ := by
  have he : (analyzeLanguagePatterns scenarioText).emotional = 1 := by decide
  have hl : (analyzeLanguagePatterns scenarioText).loaded = 3 := by decide
  have hp : (analyzeLanguagePatterns scenarioText).partisan = 0 := by decide
  have hlen : (pySplit (pyLower scenarioText)).length = 13 := by decide
  have hs := emotional_score_eq scenarioText
  rw [he, hl, hp, hlen] at hs
  norm_num at hs
  have hmk : analyzeLanguagePatterns scenarioText =
      ⟨(analyzeLanguagePatterns scenarioText).emotional,
       (analyzeLanguagePatterns scenarioText).loaded,
       (analyzeLanguagePatterns scenarioText).partisan,
       (analyzeLanguagePatterns scenarioText).emotional_score⟩ := rfl
  rw [hmk, he, hl, hp, hs]

/-- Counterexample for C7 as stated: the scenario sentence does not have 3
emotional matches, 2 loaded matches and score 5/8; the actual counts
diverge because the code splits on whitespace only and the sentence has 13
tokens. -/
theorem language_patterns_cex :
    (analyzeLanguagePatterns scenarioText).emotional ≠ 3 ∧
    (analyzeLanguagePatterns scenarioText).loaded ≠ 2 ∧
    (analyzeLanguagePatterns scenarioText).emotional_score ≠ 5/8 := by
  refine ⟨by decide, by decide, ?_⟩
  have he : (analyzeLanguagePatterns scenarioText).emotional = 1 := by decide
  have hl : (analyzeLanguagePatterns scenarioText).loaded = 3 := by decide
  have hp : (analyzeLanguagePatterns scenarioText).partisan = 0 := by decide
  have hlen : (pySplit (pyLower scenarioText)).length = 13 := by decide
  rw [emotional_score_eq, he, hl, hp, hlen]
  norm_num

/-- Source analysis with no candidates, as a single case split on the
truthiness of the primary domain. -/
lemma analyzeSources_nil (ad : ArticleData) :
    analyzeSources ad [] =
      if pyTruthy ad.domain then ⟨1, 7/10, 1/2, 0⟩ else ⟨0, 1/2, 1/2, 0⟩ := by
  cases hd : pyTruthy ad.domain
  · rw [if_neg (by simp [hd])]
    unfold analyzeSources collectSources calculateSourceConsistency
    simp only [hd, List.foldl_nil, Bool.false_eq_true, if_false, List.isEmpty_nil, if_true,
      List.length_nil, List.map_nil, SourceAnalysis.mk.injEq]
    norm_num
  · rw [if_pos (by simp [hd])]
    unfold analyzeSources collectSources calculateSourceConsistency
    simp only [hd, List.foldl_nil, if_true, List.isEmpty_nil, List.length_nil,
      SourceAnalysis.mk.injEq]
    norm_num [List.sum_cons]

/-- C6 (amended): with an empty candidate list the source analysis returns
the neutral defaults credibility 0.5 and diversity 0 only when the primary
article carries no (non-empty) domain; a primary domain alone yields
diversity 1 and credibility 0.7.  Consistency 0.5 and source bias 0 hold in
both cases. -/
theorem sourceSignals_empty_candidates (ad : ArticleData) :
    (pyTruthy ad.domain = false → analyzeSources ad [] = ⟨0, 1/2, 1/2, 0⟩) ∧
    (pyTruthy ad.domain = true → analyzeSources ad [] = ⟨1, 7/10, 1/2, 0⟩) := by
  refine ⟨fun h => ?_, fun h => ?_⟩ <;> rw [analyzeSources_nil, h] <;> simp

/-- Witness for C6: both branches of the empty-candidate source analysis on
concrete articles. -/
theorem sourceSignals_empty_candidates_witness :
    analyzeSources ⟨"txt", none⟩ [] = ⟨0, 1/2, 1/2, 0⟩ ∧
    analyzeSources ⟨"txt", some "example.com"⟩ [] = ⟨1, 7/10, 1/2, 0⟩ :=
  ⟨(sourceSignals_empty_candidates ⟨"txt", none⟩).1 rfl,
   (sourceSignals_empty_candidates ⟨"txt", some "example.com"⟩).2 (by decide)⟩

/-- Counterexample for C6 as stated: an empty candidate list together with
a primary article that has a domain gives diversity 1 and credibility 0.7,
not the claimed neutral defaults 0 and 0.5. -/
theorem sourceSignals_empty_cex :
    (analyzeSources ⟨"some text", some "example.com"⟩ []).diversity = 1 ∧
    (analyzeSources ⟨"some text", some "example.com"⟩ []).credibility = 7/10 ∧
    ¬((analyzeSources ⟨"some text", some "example.com"⟩ []).diversity = 0 ∧
      (analyzeSources ⟨"some text", some "example.com"⟩ []).credibility = 1/2) := by
  have h : analyzeSources ⟨"some text", some "example.com"⟩ [] = ⟨1, 7/10, 1/2, 0⟩ := by
    rw [analyzeSources_nil]
    simp [pyTruthy]
  rw [h]
  refine ⟨rfl, rfl, ?_⟩
  rintro ⟨ha, -⟩
  norm_num at ha

/-- Scoring preserves the number of candidates. -/
lemma scoreResults_length (results : List SearchResult) (sd : Option (List (Nat × ℚ))) :
    (scoreResults results sd).length = results.length := by
  cases sd <;> simp [scoreResults]

/-- C8 (amended): with no external reranking score each candidate's final
score is its similarity alone (no credibility enters), and with external
scores it is 0.6 times similarity plus 0.4 times the external score; on the
scenario similarities 0.9, 0.5, 0.8 the ranked order is positions 0, 2, 1
with final scores 0.9, 0.8, 0.5. -/
theorem rerank_score_formula (results : List SearchResult) (sd : List (Nat × ℚ)) :
    (scoreResults results none).map (fun r => r.final_score) =
      results.map (fun r => r.score) ∧
    (scoreResults results (some sd)).map (fun r => r.final_score) =
      results.enum.map (fun p => p.2.score * (6/10) + ((sd.lookup p.1).getD 0) * (4/10)) ∧
    (findRelated scenarioCandidates none 5).map (fun r => r.result.title) =
      ["c0", "c2", "c1"] ∧
    (findRelated scenarioCandidates none 5).map (fun r => r.final_score) =
      [9/10, 4/5, 1/2] := by
  refine ⟨?_, ?_, ?_, ?_⟩
  · simp [scoreResults, List.map_map, Function.comp]
  · simp [scoreResults, List.map_map, Function.comp]
  · norm_num [findRelated, rerankWithMistral, scoreResults, scenarioCandidates, rankGE]
  · norm_num [findRelated, rerankWithMistral, scoreResults, scenarioCandidates, rankGE]

/-- Counterexample for C8 as stated: on the scenario candidates with no
external score the final scores are the bare similarities 0.9, 0.8, 0.5 in
ranked order, not the claimed blend with credibility 0.84, 0.77, 0.56. -/
theorem rerank_formula_cex :
    (findRelated scenarioCandidates none 5).map (fun r => r.final_score) =
      [9/10, 4/5, 1/2] ∧
    (findRelated scenarioCandidates none 5).map (fun r => r.final_score) ≠
      [21/25, 77/100, 14/25] := by
  have h : (findRelated scenarioCandidates none 5).map (fun r => r.final_score) =
      [9/10, 4/5, 1/2] := by
    norm_num [findRelated, rerankWithMistral, scoreResults, scenarioCandidates, rankGE]
  refine ⟨h, ?_⟩
  rw [h]
  norm_num

/-- C9: the ranked output has length the minimum of top_k and the number of
candidates, is sorted non-increasing by final score, is empty on an empty
candidate list, and the sort is stable: a pair of scored candidates in
input order with equal final scores stays in that order after reranking. -/
theorem findRelated_ranked_props (results : List SearchResult)
    (sd : Option (List (Nat × ℚ))) (top_k : Nat) :
    (findRelated results sd top_k).length = min top_k results.length ∧
    List.Pairwise (fun a b => b.final_score ≤ a.final_score)
      (findRelated results sd top_k) ∧
    (results = [] → findRelated results sd top_k = []) ∧
    (∀ a b : RankedResult, [a, b].Sublist (scoreResults results sd) →
      a.final_score = b.final_score →
      [a, b].Sublist (rerankWithMistral results sd)) := by
  refine ⟨?_, ?_, fun h => ?_, fun a b hsub heq => ?_⟩
  · simp [findRelated, rerankWithMistral, List.length_take, List.length_insertionSort,
      scoreResults_length]
  · have hs : List.Pairwise rankGE ((scoreResults results sd).insertionSort rankGE) :=
      List.sorted_insertionSort rankGE _
    exact hs.sublist (List.take_sublist _ _)
  · subst h
    cases sd <;> simp [findRelated, rerankWithMistral, scoreResults]
  · exact List.pair_sublist_insertionSort (show rankGE a b from heq.ge) hsub

/-- Witness for C9: the properties on a two-candidate tie, including the
stability of the tie in the reranked output, and the empty-list case. -/
theorem findRelated_ranked_props_witness :
    (findRelated tieCandidates none 1).length = min 1 tieCandidates.length ∧
    findRelated [] none 3 = [] ∧
    [⟨⟨1/2, "a", "", ""⟩, none, 1/2⟩, ⟨⟨1/2, "b", "", ""⟩, none, 1/2⟩].Sublist
      (rerankWithMistral tieCandidates none) :=
  ⟨(findRelated_ranked_props tieCandidates none 1).1,
   (findRelated_ranked_props [] none 3).2.2.1 rfl,
   (findRelated_ranked_props tieCandidates none 2).2.2.2
     ⟨⟨1/2, "a", "", ""⟩, none, 1/2⟩ ⟨⟨1/2, "b", "", ""⟩, none, 1/2⟩
     (List.Sublist.refl _) rfl⟩

end VerifAI
